import Mathlib

/-!
Verification development for the geodesy repository: a shallow embedding of
the definition-syntax detector, the parameter resolver, the typed parameter
schema, and the tmerc / btmerc / laea projection kernels, together with
theorems settling the specification claims about them.

Modelling conventions:
* Rust `&str` / `String` values are modelled as `Str := List Char`, so that
  every string operation used by the source is structurally recursive and
  kernel-computable.
* Rust `f64` values are modelled as `Fp`: an exact rational together with an
  explicit `nan` element.  IEEE comparisons on `nan` are `false`, and `nan`
  propagates through arithmetic.  The transcendental leaf functions used by
  the kernels (sin_cos, atan2, asinh, hypot, sqrt, asin, ln, the Clenshaw
  summations of the math kernel, and the ellipsoid methods) live outside the
  repository sources provided under src/, so they are passed as explicit
  parameters (`MathOps`, `Ellipsoid`); every theorem quantifies over them,
  and concrete instantiations are used for witnesses.
-/

set_option autoImplicit false

namespace Geodesy

/-! ## Strings as lists of characters -/

/-- Rust strings, modelled as lists of characters. -/
abbrev Str := List Char

/-- Coerce a Lean string literal to `Str`. -/
def str (s : String) : Str := s.data

/-- Does `p` occur at the beginning of `s`?  Models Rust `str::starts_with`. -/
def leadsWith : Str → Str → Bool
  | [], _ => true
  | _ :: _, [] => false
  | p :: ps, c :: cs => p = c && leadsWith ps cs

/-- Does `p` occur at the end of `s`?  Models Rust `str::ends_with`. -/
def trailsWith (p s : Str) : Bool := leadsWith p.reverse s.reverse

/-- Does `p` occur anywhere inside `s`?  Models Rust `str::contains`. -/
def hasSub (p : Str) : Str → Bool
  | [] => leadsWith p []
  | c :: rest => leadsWith p (c :: rest) || hasSub p rest

/-- Drop leading whitespace. -/
def dropWS (s : Str) : Str := s.dropWhile Char.isWhitespace

/-- The longest whitespace-free leading run. -/
def takeTok (s : Str) : Str := s.takeWhile (fun c => !c.isWhitespace)

/-- First whitespace-separated token, or the empty string; models
`s.split_whitespace().next().unwrap_or_default()`. -/
def firstTok (s : Str) : Str := takeTok (dropWS s)

/-- Strip leading and trailing whitespace; models Rust `str::trim`. -/
def trimStr (s : Str) : Str := ((dropWS s).reverse.dropWhile Char.isWhitespace).reverse

/-- Lower-case a string; models Rust `str::to_lowercase` for ASCII data. -/
def toLowerStr (s : Str) : Str := s.map Char.toLower

/-! ## The GYS detector (src/context/gys.rs, `Context::is_gys`) -/

/-- Embedding of `Context::is_gys` (src/context/gys.rs lines 111-147): the
sequence of early returns classifying a text as Geodetic YAML Shorthand. -/
def isGys (s : Str) : Bool :=
  if hasSub (str " | ") s then true
  else if leadsWith (str "|") s then true
  else if trailsWith (str "|") s then true
  else if leadsWith (str "[") s then trailsWith (str "]") s
  else if trailsWith (str "]") s then leadsWith (str "[") s
  else if !(trailsWith (str ":") (firstTok s)) then true
  else false

/-- The claim C9 wording of the detector: a flat disjunction in which the
first-token rule also applies to texts beginning with an unmatched bracket. -/
def isGysClaim (s : Str) : Bool :=
  hasSub (str " | ") s || leadsWith (str "|") s || trailsWith (str "|") s ||
    (leadsWith (str "[") s && trailsWith (str "]") s) ||
    !(trailsWith (str ":") (firstTok s))

/-- The amended wording: the pipe rules come first; then a text beginning
with a bracket or ending with one is shorthand exactly when it is wrapped in
matched brackets; only texts with neither marker fall to the first-token
rule. -/
def isGysAmended (s : Str) : Bool :=
  hasSub (str " | ") s || leadsWith (str "|") s || trailsWith (str "|") s ||
    (if leadsWith (str "[") s || trailsWith (str "]") s then
      leadsWith (str "[") s && trailsWith (str "]") s
    else !(trailsWith (str ":") (firstTok s)))

/-! ## Association lists (modelling BTreeMap / HashMap lookups) -/

/-- First-match lookup in an association list. -/
def alookup {α : Type} (key : Str) : List (Str × α) → Option α
  | [] => none
  | (k, v) :: rest => if k = key then some v else alookup key rest

/-- Boolean membership in a list of strings. -/
def memStr (key : Str) : List Str → Bool
  | [] => false
  | s :: rest => decide (s = key) || memStr key rest

/-! ## The GYS parameter lookup (src/context/gys.rs, `GysArgs`) -/

/-- Error type of the gys context path; the embedding carries the variant
the embedded functions construct. -/
inductive GysError where
  | syntaxErr (msg : Str)
  deriving DecidableEq

/-- Embedding of the lookup loop of `GysArgs::value` (src/context/gys.rs
lines 359-393).  The Rust loop owns a reverse iterator over the globals and
locals; each `find` consumes the scanned elements, so the embedding walks
the reversed haystack structurally: a non-matching head is skipped exactly
as the iterator passes over it.  A caret value re-enters the loop with a new
needle, a star value stages a default and re-enters with the original key. -/
def gysScan (key : Str) : List (Str × Str) → Str → Str → Bool →
    Except GysError (Option Str)
  | [], _, dflt, chasing =>
    if dflt ≠ [] then .ok (some dflt)
    else if chasing then
      .error (.syntaxErr (str "Incomplete definition for " ++ key))
    else .ok none
  | (k, v) :: rest, needle, dflt, chasing =>
    if k = needle then
      let thevalue := trimStr v
      if leadsWith (str "^") thevalue then
        gysScan key rest (thevalue.drop 1) dflt true
      else if leadsWith (str "*") thevalue then
        gysScan key rest key (thevalue.drop 1) true
      else .ok (some (trimStr thevalue))
    else gysScan key rest needle dflt chasing

/-- The two scope lists of a `GysArgs` (the `used` bookkeeping vector is not
modelled; nothing reads it). -/
structure GysArgs where
  globals : List (Str × Str)
  locals : List (Str × Str)

/-- Embedding of `GysArgs::value` (src/context/gys.rs lines 343-397): trim
the key, reject an empty key, then run the haystack loop over the reversed
concatenation of globals and locals. -/
def GysArgs.value (a : GysArgs) (key : Str) : Except GysError (Option Str) :=
  let key := trimStr key
  if key = [] then .error (.syntaxErr (str "Empty key"))
  else gysScan key ((a.globals ++ a.locals).reverse) key [] false

/-- Embedding of `GysArgs::flag` (src/context/gys.rs lines 399-407): a found
value is true unless it is case-insensitively `false`; an absent key is
false. -/
def GysArgs.flag (a : GysArgs) (key : Str) : Except GysError Bool :=
  match a.value key with
  | .error e => .error e
  | .ok (some v) => .ok (if toLowerStr v = str "false" then false else true)
  | .ok none => .ok false

/-! ## The old operator infrastructure lookup (src/operators.rs) -/

/-- Embedding of `OperatorArgs::value_recursive_search` (src/operators.rs
lines 103-116).  The Rust function recurses on every caret indirection with
no depth cap and no visited set, so it is not a terminating function; the
embedding indexes it by a fuel bound, and a result of `none` means the
recursion did not reach a value within that depth.  (The `all_used`
bookkeeping map is not modelled; nothing reads it.) -/
def valueRecursiveSearch (args : List (Str × Str)) (dflt : Str) :
    Nat → Str → Option Str
  | 0, _ => none
  | fuel + 1, key =>
    match alookup key args with
    | none => some dflt
    | some arg =>
      if leadsWith (str "^") arg then
        valueRecursiveSearch args dflt fuel (arg.drop 1)
      else some arg

/-- The cyclic scope list `a: ^b, b: ^a` named by the specification. -/
def cyclicArgs : List (Str × Str) := [(str "a", str "^b"), (str "b", str "^a")]

/-! ## An exact model of f64 values -/

/-- Model of an `f64` value: an exact rational, or NaN.  Arithmetic is exact
(rounding is not modelled) and NaN-propagating; comparisons involving NaN
are false, as in IEEE-754.  Division by zero is mapped to `nan` (the IEEE
infinities are not modelled; no embedded code path compares against an
infinity). -/
inductive Fp where
  | num (q : ℚ)
  | nan
  deriving DecidableEq

namespace Fp

def add : Fp → Fp → Fp
  | num a, num b => num (a + b)
  | _, _ => nan

def sub : Fp → Fp → Fp
  | num a, num b => num (a - b)
  | _, _ => nan

def mul : Fp → Fp → Fp
  | num a, num b => num (a * b)
  | _, _ => nan

def div : Fp → Fp → Fp
  | num a, num b => if b = 0 then nan else num (a / b)
  | _, _ => nan

def neg : Fp → Fp
  | num a => num (-a)
  | nan => nan

/-- Absolute value; models `f64::abs`. -/
def fabs : Fp → Fp
  | num a => num |a|
  | nan => nan

/-- Strict less-than as a boolean; false whenever an operand is NaN. -/
def flt : Fp → Fp → Bool
  | num a, num b => decide (a < b)
  | _, _ => false

/-- Strict greater-than as a boolean; false whenever an operand is NaN. -/
def fgt (x y : Fp) : Bool := flt y x

instance : Add Fp := ⟨add⟩
instance : Sub Fp := ⟨sub⟩
instance : Mul Fp := ⟨mul⟩
instance : Div Fp := ⟨div⟩
instance : Neg Fp := ⟨neg⟩

end Fp

/-- A fixed-slot array of four doubles, as in the `[f64; 4]` parameter
slots of `ParsedParameters`. -/
structure Quad where
  s0 : Fp
  s1 : Fp
  s2 : Fp
  s3 : Fp
  deriving DecidableEq

/-- The all-zero slot array, the initial value of every fixed slot. -/
def Quad.zero : Quad := ⟨Fp.num 0, Fp.num 0, Fp.num 0, Fp.num 0⟩

/-! ## Opaque interfaces of the math kernel and the ellipsoid

The Clenshaw summations, the Gudermannian, the Fourier-coefficient
evaluation (the math module) and the `Ellipsoid` methods (the geodesy crate
ellipsoid module) are outside the sources provided under src/, so they enter
the embedding as explicit parameters: the kernels below are faithful to how
the source calls them, and every theorem quantifies over them. -/

/-- A forward/inverse pair of Fourier coefficient vectors, as produced by
the math kernel `fourier_coefficients` and stored per operator. -/
structure FourierCoefficients where
  fwd : List Fp
  inv : List Fp
  deriving DecidableEq

/-- A table of polynomial coefficients in the third flattening, as in the
static `PolynomialCoefficients` tables baked into each kernel. -/
structure PolynomialCoefficients where
  fwd : List (List ℚ)
  inv : List (List ℚ)

/-- The ellipsoid interface consumed by the kernels: one field per method
the embedded code calls.  The geodesy crate ellipsoid implementation is not
under src/. -/
structure Ellipsoid where
  semimajorAxis : Fp
  eccentricity : Fp
  eccentricitySquared : Fp
  secondEccentricitySquared : Fp
  thirdFlattening : Fp
  normalizedMeridianArcUnit : Fp
  latitudeGeographicToConformal : Fp → FourierCoefficients → Fp
  latitudeConformalToGeographic : Fp → FourierCoefficients → Fp
  latitudeAuthalicToGeographic : Fp → FourierCoefficients → Fp
  coefficientsForConformalLatitudeComputations : FourierCoefficients
  coefficientsForAuthalicLatitudeComputations : FourierCoefficients

/-- The math-kernel interface consumed by the kernels: one field per
function the embedded code calls (the math module, Rust std float methods,
and the laea helper `qs`). -/
structure MathOps where
  sinCos : Fp → Fp × Fp
  sin : Fp → Fp
  atan2 : Fp → Fp → Fp
  asinh : Fp → Fp
  hypot : Fp → Fp → Fp
  sqrt : Fp → Fp
  asin : Fp → Fp
  ln : Fp → Fp
  gudermannian : Fp → Fp
  normalizeAngleSymmetric : Fp → Fp
  clenshawSin : Fp → List Fp → Fp
  clenshawComplexSin : Fp × Fp → List Fp → Fp × Fp
  clenshawComplexSinOptimizedForTmerc : Fp × Fp → Fp × Fp → List Fp → Fp × Fp
  qsFn : Fp → Fp → Fp
  toRadians : Fp → Fp
  fourierCoefficients : Fp → PolynomialCoefficients → FourierCoefficients

/-! ## The geod error type (src/bin/geod/mod.rs) -/

/-- Embedding of the geod `Error` enum; the variants carry the payloads the
embedded code constructs. -/
inductive Error where
  | general (msg : Str)
  | syntaxErr (msg : Str)
  | operatorErr (name msg : Str)
  | notFound (name hint : Str)
  | recursion (key chain : Str)
  | missingParam (key : Str)
  | badParam (key value : Str)
  | unknown
  deriving DecidableEq

/-! ## The parameter schema -/

/-- Embedding of `OpParameter`: one tagged variant per accepted parameter
kind, with the optional defaults typed as in the source (`Series` defaults
are unparsed text). -/
inductive OpParameter where
  | Flag (key : Str)
  | Natural (key : Str) (dflt : Option Nat)
  | Integer (key : Str) (dflt : Option Int)
  | Real (key : Str) (dflt : Option ℚ)
  | Series (key : Str) (dflt : Option Str)
  | Text (key : Str) (dflt : Option Str)

/-- The standard-library string parsers used by `ParsedParameters::new`
(`str::parse` targeting usize, i64 and f64); they are external to the
repository, so they are parameters of the embedding, with a successful f64
parse modelled as the exact rational value. -/
structure ParseFns where
  parseF64 : Str → Option ℚ
  parseNat : Str → Option Nat
  parseInt : Str → Option Int

/-! ## The scoped lookup of the geod binary -/

/-- Modelled from the spec: `etc::chase`, the scoped lookup used by
`ParsedParameters::new`, is part of the geod binary and is not under src/.
Following section 4.2 of the specification (and the in-src analogue
`GysArgs::value`): the step-local scope takes precedence over the globals; a
value starting with a caret is an indirection resolved against the remaining
scope entries; a value starting with a star stages a default for the
original key; a chase that ends without a concrete value is an error when no
default is staged.  The loop consumes scope entries, so it is bounded by the
scope size. -/
def chaseScan (key : Str) : List (Str × Str) → Str → Str → Bool →
    Except Error (Option Str)
  | [], _, dflt, chasing =>
    if dflt ≠ [] then .ok (some dflt)
    else if chasing then
      .error (.syntaxErr (str "Incomplete definition for " ++ key))
    else .ok none
  | (k, v) :: rest, needle, dflt, chasing =>
    if k = needle then
      if leadsWith (str "^") v then chaseScan key rest (v.drop 1) dflt true
      else if leadsWith (str "*") v then chaseScan key rest key (v.drop 1) true
      else .ok (some v)
    else chaseScan key rest needle dflt chasing

/-- Modelled from the spec: the entry point of `etc::chase` over the two
scopes, locals first. -/
def chase (globals locals : List (Str × Str)) (key : Str) :
    Except Error (Option Str) :=
  chaseScan key ((globals ++ locals).reverse) key [] false

/-- Split on commas, keeping empty pieces; models the Rust comma split used
for `Series` values. -/
def splitComma : Str → List Str
  | [] => [[]]
  | c :: rest =>
    if c = ',' then [] :: splitComma rest
    else
      match splitComma rest with
      | [] => [[c]]
      | t :: ts => (c :: t) :: ts

/-! ## ParsedParameters (src/bin/geod/parsed_parameters.rs) -/

/-- The typed bins filled by the schema loop of `ParsedParameters::new`. -/
structure PPMaps where
  boolean : List Str
  natural : List (Str × Nat)
  integer : List (Str × Int)
  real : List (Str × Fp)
  series : List (Str × List Fp)
  text : List (Str × Str)

/-- Embedding of the schema loop of `ParsedParameters::new`
(src/bin/geod/parsed_parameters.rs lines 108-251): for each gamut entry,
chase the key through the scopes, coerce to the declared type, fall back to
the staged default, and fail with `BadParam` on a failed coercion or
`MissingParam` on a missing defaultless parameter.  Map insertion is
modelled by consing (lookups see the latest binding, as for BTreeMap
insert). -/
def ppLoop (P : ParseFns) (g l : List (Str × Str)) :
    List OpParameter → PPMaps → Except Error PPMaps
  | [], acc => .ok acc
  | p :: rest, acc =>
    match p with
    | .Flag key =>
      match chase g l key with
      | .error e => .error e
      | .ok (some value) =>
        if value = [] ∨ toLowerStr value = str "true" then
          ppLoop P g l rest { acc with boolean := key :: acc.boolean }
        else .error (.badParam key value)
      | .ok none => ppLoop P g l rest acc
    | .Natural key dflt =>
      match chase g l key with
      | .error e => .error e
      | .ok (some value) =>
        match P.parseNat value with
        | some v => ppLoop P g l rest { acc with natural := (key, v) :: acc.natural }
        | none => .error (.badParam key value)
      | .ok none =>
        match dflt with
        | some v => ppLoop P g l rest { acc with natural := (key, v) :: acc.natural }
        | none => .error (.missingParam key)
    | .Integer key dflt =>
      match chase g l key with
      | .error e => .error e
      | .ok (some value) =>
        match P.parseInt value with
        | some v => ppLoop P g l rest { acc with integer := (key, v) :: acc.integer }
        | none => .error (.badParam key value)
      | .ok none =>
        match dflt with
        | some v => ppLoop P g l rest { acc with integer := (key, v) :: acc.integer }
        | none => .error (.missingParam key)
    | .Real key dflt =>
      match chase g l key with
      | .error e => .error e
      | .ok (some value) =>
        match P.parseF64 value with
        | some v => ppLoop P g l rest { acc with real := (key, Fp.num v) :: acc.real }
        | none => .error (.badParam key value)
      | .ok none =>
        match dflt with
        | some v => ppLoop P g l rest { acc with real := (key, Fp.num v) :: acc.real }
        | none => .error (.missingParam key)
    | .Series key dflt =>
      match chase g l key with
      | .error e => .error e
      | .ok (some value) =>
        match (splitComma value).mapM P.parseF64 with
        | some es =>
          ppLoop P g l rest { acc with series := (key, es.map Fp.num) :: acc.series }
        | none => .error (.badParam key value)
      | .ok none =>
        match dflt with
        | some dv =>
          if dv = [] then ppLoop P g l rest acc
          else
            match (splitComma dv).mapM P.parseF64 with
            | some es =>
              ppLoop P g l rest { acc with series := (key, es.map Fp.num) :: acc.series }
            | none => .error (.badParam key dv)
        | none => .error (.missingParam key)
    | .Text key dflt =>
      match chase g l key with
      | .error e => .error e
      | .ok (some value) =>
        ppLoop P g l rest { acc with text := (key, value) :: acc.text }
      | .ok none =>
        match dflt with
        | some v => ppLoop P g l rest { acc with text := (key, v) :: acc.text }
        | none => .error (.missingParam key)

/-- Embedding of the `ParsedParameters` record.  Notes: the src struct also
carries a `uuid` map that no embedded code path reads (omitted); the
inner_op kernels additionally read a `fourier_coefficients` map that the
projection constructors populate, included here and initialized empty. -/
structure ParsedParameters where
  name : Str
  ellps : Ellipsoid × Ellipsoid
  lat : Quad
  lon : Quad
  x : Quad
  y : Quad
  k : Quad
  boolean : List Str
  natural : List (Str × Nat)
  integer : List (Str × Int)
  real : List (Str × Fp)
  series : List (Str × List Fp)
  text : List (Str × Str)
  fourierCoefficients : List (Str × FourierCoefficients)
  ignored : List Str

/-- Embedding of `ParsedParameters::new` (src/bin/geod/parsed_parameters.rs
lines 90-287).  The step-local definition is represented by its split
key/value list `l` (the splitter `etc::split_into_parameters` is part of the
geod binary, not under src/; per section 4.1 of the specification it
produces the map both scopes and the `ignored` collection read).  After the
schema loop, the fixed slots are initialized to their built-in defaults,
`name` is read from the locals, and `ignored` collects the keys of the
locals. -/
def ParsedParameters.new (P : ParseFns) (dE : Ellipsoid)
    (g l : List (Str × Str)) (gamut : List OpParameter) :
    Except Error ParsedParameters :=
  match ppLoop P g l gamut ⟨[], [], [], [], [], []⟩ with
  | .error e => .error e
  | .ok m =>
    .ok
      { name := (alookup (str "name") l).getD (str "unknown")
        ellps := (dE, dE)
        lat := Quad.zero
        lon := Quad.zero
        x := Quad.zero
        y := Quad.zero
        k := Quad.zero
        boolean := m.boolean
        natural := m.natural
        integer := m.integer
        real := m.real
        series := m.series
        text := m.text
        fourierCoefficients := []
        ignored := l.map Prod.fst }

/-- Embedding of the `boolean` accessor: set membership. -/
def ParsedParameters.booleanFlag (p : ParsedParameters) (key : Str) : Bool :=
  memStr key p.boolean

/-- Embedding of the `natural` accessor: `MissingParam` when absent. -/
def ParsedParameters.naturalAcc (p : ParsedParameters) (key : Str) :
    Except Error Nat :=
  match alookup key p.natural with
  | some v => .ok v
  | none => .error (.missingParam key)

/-- Embedding of the `real` accessor: `MissingParam` when absent. -/
def ParsedParameters.realAcc (p : ParsedParameters) (key : Str) :
    Except Error Fp :=
  match alookup key p.real with
  | some v => .ok v
  | none => .error (.missingParam key)

/-- Embedding of the `fourier_coefficients` accessor: `MissingParam` when
absent. -/
def ParsedParameters.fourierAcc (p : ParsedParameters) (key : Str) :
    Except Error FourierCoefficients :=
  match alookup key p.fourierCoefficients with
  | some v => .ok v
  | none => .error (.missingParam key)

/-! ## Coordinates and batch application -/

/-- Embedding of `CoordinateTuple`: four doubles. -/
structure Coord where
  c0 : Fp
  c1 : Fp
  c2 : Fp
  c3 : Fp
  deriving DecidableEq

/-- Apply a per-point kernel body over a batch in index order, counting the
points the body reports as successes; models the kernels' in-place loops
over `operands` with their success counters. -/
def applyBatch (f : Coord → Coord × Bool) : List Coord → Nat × List Coord
  | [] => (0, [])
  | c :: rest =>
    let r := f c
    let rr := applyBatch f rest
    ((if r.2 then 1 else 0) + rr.1, r.1 :: rr.2)

/-- Embedding of an `Op`: the typed parameters.  The descriptor's kernel
handles, the child steps and the op id are not represented; the claims
inspect only the parameters. -/
structure Op where
  params : ParsedParameters

/-! ## Transverse Mercator (src/src/inner_op/tmerc.rs) -/

/-- The tmerc domain guard threshold appearing in both kernels
(src/src/inner_op/tmerc.rs lines 75 and 125). -/
def tmercEtaMax : Fp := Fp.num (2.623395162778 : ℚ)

/-- The corrected complex-spherical coordinates computed by the forward
tmerc loop body (src/src/inner_op/tmerc.rs lines 33-72): conformal latitude,
rotation about the central meridian, the atan2/asinh mapping, and the
optimized complex Clenshaw correction.  The second component is the η the
domain guard inspects. -/
def tmercFwdLatLon (O : MathOps) (e : Ellipsoid)
    (conformal tm : FourierCoefficients) (lat0 lon0 : Fp) (c : Coord) :
    Fp × Fp :=
  let lat := e.latitudeGeographicToConformal (c.c1 + lat0) conformal
  let lon := c.c0 - lon0
  let sc := O.sinCos lat
  let sl := O.sinCos lon
  let sin_lat := sc.1
  let cos_lat := sc.2
  let sin_lon := sl.1
  let cos_lon := sl.2
  let cos_lat_lon := cos_lat * cos_lon
  let lat1 := O.atan2 sin_lat cos_lat_lon
  let inv_denom_tan_lon := Fp.num 1 / O.hypot sin_lat cos_lat_lon
  let tan_lon := sin_lon * cos_lat * inv_denom_tan_lon
  let lon1 := O.asinh tan_lon
  let two_inv_denom_tan_lon := Fp.num 2 * inv_denom_tan_lon
  let two_inv_denom_tan_lon_square := two_inv_denom_tan_lon * inv_denom_tan_lon
  let tmp_r := cos_lat_lon * two_inv_denom_tan_lon_square
  let trig := (sin_lat * tmp_r, cos_lat_lon * tmp_r - Fp.num 1)
  let hyp := (tan_lon * two_inv_denom_tan_lon,
    two_inv_denom_tan_lon_square - Fp.num 1)
  let dc := O.clenshawComplexSinOptimizedForTmerc trig hyp tm.fwd
  (lat1 + dc.1, lon1 + dc.2)

/-- The forward tmerc loop body (src/src/inner_op/tmerc.rs lines 32-86):
guard on η, writing NaN into the first two slots and skipping, or scale,
translate and count. -/
def tmercFwdPoint (O : MathOps) (e : Ellipsoid)
    (conformal tm : FourierCoefficients) (qs zb lat0 lon0 x0 : Fp)
    (c : Coord) : Coord × Bool :=
  let ll := tmercFwdLatLon O e conformal tm lat0 lon0 c
  if Fp.fgt (Fp.fabs ll.2) tmercEtaMax then
    ({ c with c0 := Fp.nan, c1 := Fp.nan }, false)
  else
    ({ c with c0 := qs * ll.2 + x0, c1 := qs * ll.1 + zb }, true)

/-- Embedding of the forward tmerc kernel (src/src/inner_op/tmerc.rs lines
8-90): four precomputed-parameter lookups each soft-failing the whole batch
with `Ok(0)`, then the guarded loop. -/
def tmercFwd (O : MathOps) (p : ParsedParameters) (operands : List Coord) :
    Except Error (Nat × List Coord) :=
  match alookup (str "conformal") p.fourierCoefficients with
  | none => .ok (0, operands)
  | some conformal =>
  match alookup (str "tm") p.fourierCoefficients with
  | none => .ok (0, operands)
  | some tm =>
  match alookup (str "scaled_radius") p.real with
  | none => .ok (0, operands)
  | some qs =>
  match alookup (str "zb") p.real with
  | none => .ok (0, operands)
  | some zb =>
    .ok (applyBatch
      (tmercFwdPoint O p.ellps.1 conformal tm qs zb p.lat.s0 p.lon.s0 p.x.s0)
      operands)

/-- The normalized easting the inverse tmerc guard inspects
(src/src/inner_op/tmerc.rs line 121). -/
def tmercInvEta (qs x0 : Fp) (c : Coord) : Fp := (c.c0 - x0) / qs

/-- The inverse tmerc loop body (src/src/inner_op/tmerc.rs lines 118-153):
normalize, guard on the normalized easting (NaN and skip), then the inverse
Clenshaw correction, Gudermannian, rotation and conformal-to-geographic
conversion. -/
def tmercInvPoint (O : MathOps) (e : Ellipsoid)
    (conformal tm : FourierCoefficients) (qs zb lon0 x0 : Fp)
    (c : Coord) : Coord × Bool :=
  let lon := tmercInvEta qs x0 c
  let lat := (c.c1 - zb) / qs
  if Fp.fgt (Fp.fabs lon) tmercEtaMax then
    ({ c with c0 := Fp.nan, c1 := Fp.nan }, false)
  else
    let dc := O.clenshawComplexSin (Fp.num 2 * lat, Fp.num 2 * lon) tm.inv
    let lat1 := lat + dc.1
    let lon1 := O.gudermannian (lon + dc.2)
    let sc := O.sinCos lat1
    let sl := O.sinCos lon1
    let sin_lat := sc.1
    let cos_lat := sc.2
    let sin_lon := sl.1
    let cos_lon := sl.2
    let cos_lat_lon := cos_lat * cos_lon
    let lon2 := O.atan2 sin_lon cos_lat_lon
    let lat2 := O.atan2 (sin_lat * cos_lon) (O.hypot sin_lon cos_lat_lon)
    ({ c with c0 := O.normalizeAngleSymmetric (lon2 + lon0),
              c1 := e.latitudeConformalToGeographic lat2 conformal }, true)

/-- Embedding of the inverse tmerc kernel (src/src/inner_op/tmerc.rs lines
95-157): the same four soft-failing lookups, then the guarded loop. -/
def tmercInv (O : MathOps) (p : ParsedParameters) (operands : List Coord) :
    Except Error (Nat × List Coord) :=
  match alookup (str "conformal") p.fourierCoefficients with
  | none => .ok (0, operands)
  | some conformal =>
  match alookup (str "tm") p.fourierCoefficients with
  | none => .ok (0, operands)
  | some tm =>
  match alookup (str "scaled_radius") p.real with
  | none => .ok (0, operands)
  | some qs =>
  match alookup (str "zb") p.real with
  | none => .ok (0, operands)
  | some zb =>
    .ok (applyBatch
      (tmercInvPoint O p.ellps.1 conformal tm qs zb p.lon.s0 p.x.s0)
      operands)

/-- The tmerc schema (src/src/inner_op/tmerc.rs lines 162-172). -/
def tmercGamut : List OpParameter :=
  [ .Flag (str "inv"), .Text (str "ellps") (some (str "GRS80")),
    .Real (str "lat_0") (some 0), .Real (str "lon_0") (some 0),
    .Real (str "x_0") (some 0), .Real (str "y_0") (some 0),
    .Real (str "k_0") (some 1) ]

/-- The utm schema (src/src/inner_op/tmerc.rs lines 175-179, identical to
src/src/inner_op/btmerc.rs lines 110-114): `zone` is required. -/
def utmGamut : List OpParameter :=
  [ .Flag (str "inv"), .Text (str "ellps") (some (str "GRS80")),
    .Natural (str "zone") none ]

/-- The Engsager-Poder / Karney polynomial table `TRANSVERSE_MERCATOR`
(src/src/inner_op/tmerc.rs lines 230-250), transcribed exactly. -/
def TRANSVERSE_MERCATOR : PolynomialCoefficients where
  fwd :=
    [ [1/2, -2/3, 5/16, 41/180, -127/288, 7891/37800],
      [0, 13/48, -3/5, 557/1440, 281/630, -1983433/1935360],
      [0, 0, 61/240, -103/140, 15061/26880, 167603/181440],
      [0, 0, 0, 49561/161280, -179/168, 6601661/7257600],
      [0, 0, 0, 0, 34729/80640, -3418889/1995840],
      [0, 0, 0, 0, 0, 212378941/319334400] ]
  inv :=
    [ [-1/2, 2/3, -37/96, 1/360, 81/512, -96199/604800],
      [0, -1/48, -1/15, 437/1440, -46/105, 1118711/3870720],
      [0, 0, -17/480, 37/840, 209/4480, -5569/90720],
      [0, 0, 0, -4397/161280, 11/504, 830251/7257600],
      [0, 0, 0, 0, -4583/161280, 108847/3991680],
      [0, 0, 0, 0, 0, -20648693/638668800] ]

/-- Embedding of the tmerc `precompute` (src/src/inner_op/tmerc.rs lines
255-289): inserts `scaled_radius`, the `conformal` and `tm` Fourier
coefficient sets, and the `zb` offset into the typed maps; the fixed slots
are read but never written. -/
def tmercPrecompute (O : MathOps) (p : ParsedParameters) : ParsedParameters :=
  let e := p.ellps.1
  let n := e.thirdFlattening
  let qs := p.k.s0 * e.semimajorAxis * e.normalizedMeridianArcUnit
  let conformal := e.coefficientsForConformalLatitudeComputations
  let tm := O.fourierCoefficients n TRANSVERSE_MERCATOR
  let z := e.latitudeGeographicToConformal p.lat.s0 conformal
  let zb := p.y.s0 - qs * (z + O.clenshawSin (Fp.num 2 * z) tm.fwd)
  { p with
    real := (str "zb", zb) :: (str "scaled_radius", qs) :: p.real
    fourierCoefficients :=
      (str "tm", tm) :: (str "conformal", conformal) :: p.fourierCoefficients }

/-- The sequence of slot assignments common to both utm constructors
(src/src/inner_op/tmerc.rs lines 197-210 and src/src/inner_op/btmerc.rs
lines 128-141, which are textually identical): `k[0] = 0.9996`,
`lon[0] = to_radians(-183 + 6 zone)`, `lat[0] = 0`, and `x[0] = 500000`
assigned twice, where the second assignment is commented as the false
northing; `y[0]` is never assigned. -/
def utmOverride (O : MathOps) (zone : Nat) (params0 : ParsedParameters) :
    ParsedParameters :=
  let p1 := { params0 with k := { params0.k with s0 := Fp.num (0.9996 : ℚ) } }
  let p2 := { p1 with lon := { p1.lon with
    s0 := O.toRadians (Fp.num (-183) + Fp.num 6 * Fp.num (zone : ℚ)) } }
  let p3 := { p2 with lat := { p2.lat with s0 := Fp.num 0 } }
  let p4 := { p3 with x := { p3.x with s0 := Fp.num 500000 } }
  { p4 with x := { p4.x with s0 := Fp.num 500000 } }

/-- Embedding of the tmerc-backed utm constructor (src/src/inner_op/tmerc.rs
lines 183-225): schema parse, zone range check, the slot overrides, then the
precompute. -/
def utm (O : MathOps) (P : ParseFns) (dE : Ellipsoid)
    (g l : List (Str × Str)) : Except Error Op :=
  match ParsedParameters.new P dE g l utmGamut with
  | .error e => .error e
  | .ok params0 =>
  match params0.naturalAcc (str "zone") with
  | .error e => .error e
  | .ok zone =>
    if ¬(1 ≤ zone ∧ zone < 61) then
      .error (.general (str "UTM: zone must be an integer in the interval 1..60"))
    else
      .ok { params := tmercPrecompute O (utmOverride O zone params0) }

/-- Embedding of the btmerc-backed utm constructor
(src/src/inner_op/btmerc.rs lines 116-153): identical zone check and slot
overrides, with no precompute step. -/
def butm (O : MathOps) (P : ParseFns) (dE : Ellipsoid)
    (g l : List (Str × Str)) : Except Error Op :=
  match ParsedParameters.new P dE g l utmGamut with
  | .error e => .error e
  | .ok params0 =>
  match params0.naturalAcc (str "zone") with
  | .error e => .error e
  | .ok zone =>
    if ¬(1 ≤ zone ∧ zone < 61) then
      .error (.general (str "UTM: zone must be an integer in the interval 1..60"))
    else
      .ok { params := utmOverride O zone params0 }

/-! ## Lambert Azimuthal Equal Area (src/src/inner_op/laea.rs) -/

/-- The laea epsilon `EPS10` (src/src/inner_op/laea.rs line 5). -/
def EPS10 : Fp := Fp.num (1 / 10000000000)

/-- The polar-aspect forward laea loop body (src/src/inner_op/laea.rs lines
35-48); every point is counted. -/
def laeaFwdPolarPoint (O : MathOps) (e : Ellipsoid) (northPolar : Bool)
    (qp lon0 x0 y0 : Fp) (c : Coord) : Coord × Bool :=
  let sign := if northPolar then Fp.num (-1) else Fp.num 1
  let sl := O.sinCos (c.c0 - lon0)
  let q := O.qsFn (O.sin c.c1) e.eccentricity
  let rho := e.semimajorAxis * O.sqrt (qp + sign * q)
  ({ c with c0 := x0 + rho * sl.1, c1 := y0 + sign * rho * sl.2 }, true)

/-- The oblique / equatorial forward laea loop body
(src/src/inner_op/laea.rs lines 52-75); every point is counted. -/
def laeaFwdPoint (O : MathOps) (e : Ellipsoid) (oblique : Bool)
    (qp rq d sinXi0 cosXi0 lon0 x0 y0 : Fp) (c : Coord) : Coord × Bool :=
  let sl := O.sinCos (c.c0 - lon0)
  let xi := O.asin (O.qsFn (O.sin c.c1) e.eccentricity / qp)
  let sx := O.sinCos xi
  let b :=
    if oblique then
      rq * O.sqrt (Fp.num 2 / (Fp.num 1 + sinXi0 * sx.1 + cosXi0 * sx.2 * sl.2))
    else Fp.num 1
  ({ c with c0 := x0 + (b * d) * (sx.2 * sl.1),
            c1 := y0 + (b / d) * (cosXi0 * sx.1 - sinXi0 * sx.2 * sl.2) }, true)

/-- Embedding of the forward laea kernel (src/src/inner_op/laea.rs lines
11-78): four real lookups each soft-failing the batch with `Ok(0)`, aspect
dispatch on the boolean flags, then the per-aspect loop. -/
def laeaFwd (O : MathOps) (p : ParsedParameters) (operands : List Coord) :
    Except Error (Nat × List Coord) :=
  match p.realAcc (str "xi_0") with
  | .error _ => .ok (0, operands)
  | .ok xi0 =>
  match p.realAcc (str "qp") with
  | .error _ => .ok (0, operands)
  | .ok qp =>
  match p.realAcc (str "rq") with
  | .error _ => .ok (0, operands)
  | .ok rq =>
  match p.realAcc (str "d") with
  | .error _ => .ok (0, operands)
  | .ok d =>
    let e := p.ellps.1
    let sx := O.sinCos xi0
    if p.booleanFlag (str "north_polar") || p.booleanFlag (str "south_polar") then
      .ok (applyBatch
        (laeaFwdPolarPoint O e (p.booleanFlag (str "north_polar"))
          qp p.lon.s0 p.x.s0 p.y.s0)
        operands)
    else
      .ok (applyBatch
        (laeaFwdPoint O e (p.booleanFlag (str "oblique"))
          qp rq d sx.1 sx.2 p.lon.s0 p.x.s0 p.y.s0)
        operands)

/-- The ρ of the inverse laea general aspect (src/src/inner_op/laea.rs line
129). -/
def laeaInvRho (O : MathOps) (d x0 y0 : Fp) (c : Coord) : Fp :=
  O.hypot ((c.c0 - x0) / d) (d * (c.c1 - y0))

/-- The guarded asin argument of the inverse laea general aspect
(src/src/inner_op/laea.rs line 139). -/
def laeaInvAsinArg (O : MathOps) (rq d x0 y0 : Fp) (c : Coord) : Fp :=
  Fp.num (1/2 : ℚ) * laeaInvRho O d x0 y0 c / rq

/-- The polar-aspect inverse laea loop body (src/src/inner_op/laea.rs lines
108-122); every point is counted. -/
def laeaInvPolarPoint (O : MathOps) (e : Ellipsoid) (northPolar : Bool)
    (authalic : FourierCoefficients) (lon0 x0 y0 : Fp) (c : Coord) :
    Coord × Bool :=
  let sign := if northPolar then Fp.num (-1) else Fp.num 1
  let rho := O.hypot (c.c0 - x0) (c.c1 - y0)
  let a := e.semimajorAxis
  let es := e.eccentricitySquared
  let ec := O.sqrt es
  let denom := a * a * (Fp.num 1 -
    ((Fp.num 1 - es) / (Fp.num 2 * ec)) * O.ln ((Fp.num 1 - ec) / (Fp.num 1 + ec)))
  let xi := Fp.neg sign * (Fp.num 1 - rho * rho / denom)
  ({ c with c0 := lon0 + O.atan2 (c.c0 - x0) (sign * (c.c1 - y0)),
            c1 := e.latitudeAuthalicToGeographic xi authalic }, true)

/-- The oblique / equatorial inverse laea loop body
(src/src/inner_op/laea.rs lines 126-156): the near-origin guard maps the
point to the projection center and counts it; the out-of-domain guard skips
the point leaving it unmodified and uncounted. -/
def laeaInvPoint (O : MathOps) (e : Ellipsoid)
    (authalic : FourierCoefficients) (rq d sinXi0 cosXi0 lat0 lon0 x0 y0 : Fp)
    (c : Coord) : Coord × Bool :=
  let rho := laeaInvRho O d x0 y0 c
  if Fp.flt rho EPS10 then
    ({ c with c0 := Fp.num 0, c1 := lat0 }, true)
  else if Fp.fgt (Fp.fabs (laeaInvAsinArg O rq d x0 y0 c)) (Fp.num 1) then
    (c, false)
  else
    let cc := Fp.num 2 * O.asin (laeaInvAsinArg O rq d x0 y0 c)
    let scc := O.sinCos cc
    let xi := O.asin (scc.2 * sinXi0 + (d * (c.c1 - y0) * scc.1 * cosXi0) / rho)
    let numv := (c.c0 - x0) * scc.1
    let denomv := d * rho * cosXi0 * scc.2 - d * d * (c.c1 - y0) * sinXi0 * scc.1
    ({ c with c0 := O.atan2 numv denomv + lon0,
              c1 := e.latitudeAuthalicToGeographic xi authalic }, true)

/-- Embedding of the inverse laea kernel (src/src/inner_op/laea.rs lines
82-159): lookups of `xi_0`, `rq`, `d` and the `authalic` coefficients each
soft-failing with `Ok(0)` (note: `qp` is not read here), aspect dispatch,
then the per-aspect loop. -/
def laeaInv (O : MathOps) (p : ParsedParameters) (operands : List Coord) :
    Except Error (Nat × List Coord) :=
  match p.realAcc (str "xi_0") with
  | .error _ => .ok (0, operands)
  | .ok xi0 =>
  match p.realAcc (str "rq") with
  | .error _ => .ok (0, operands)
  | .ok rq =>
  match p.realAcc (str "d") with
  | .error _ => .ok (0, operands)
  | .ok d =>
  match p.fourierAcc (str "authalic") with
  | .error _ => .ok (0, operands)
  | .ok authalic =>
    let e := p.ellps.1
    let sx := O.sinCos xi0
    if p.booleanFlag (str "north_polar") || p.booleanFlag (str "south_polar") then
      .ok (applyBatch
        (laeaInvPolarPoint O e (p.booleanFlag (str "north_polar"))
          authalic p.lon.s0 p.x.s0 p.y.s0)
        operands)
    else
      .ok (applyBatch
        (laeaInvPoint O e authalic rq d sx.1 sx.2
          p.lat.s0 p.lon.s0 p.x.s0 p.y.s0)
        operands)

/-! ## Concrete fixtures for closed evaluations -/

/-- A concrete ellipsoid interpretation for closed evaluations. -/
def testEllipsoid : Ellipsoid where
  semimajorAxis := Fp.num 2
  eccentricity := Fp.num 0
  eccentricitySquared := Fp.num 0
  secondEccentricitySquared := Fp.num 0
  thirdFlattening := Fp.num 0
  normalizedMeridianArcUnit := Fp.num 1
  latitudeGeographicToConformal := fun v _ => v
  latitudeConformalToGeographic := fun v _ => v
  latitudeAuthalicToGeographic := fun v _ => v
  coefficientsForConformalLatitudeComputations := ⟨[], []⟩
  coefficientsForAuthalicLatitudeComputations := ⟨[], []⟩

/-- A concrete math-kernel interpretation for closed evaluations. -/
def testOps : MathOps where
  sinCos := fun _ => (Fp.num 0, Fp.num 1)
  sin := fun _ => Fp.num 0
  atan2 := fun _ _ => Fp.num 0
  asinh := fun v => v
  hypot := fun v w => Fp.fabs v + Fp.fabs w
  sqrt := fun v => v
  asin := fun v => v
  ln := fun v => v
  gudermannian := fun v => v
  normalizeAngleSymmetric := fun v => v
  clenshawSin := fun _ _ => Fp.num 0
  clenshawComplexSin := fun _ _ => (Fp.num 0, Fp.num 0)
  clenshawComplexSinOptimizedForTmerc := fun _ _ _ => (Fp.num 0, Fp.num 0)
  qsFn := fun _ _ => Fp.num 0
  toRadians := fun v => v
  fourierCoefficients := fun _ _ => ⟨[], []⟩

/-- Concrete parsers recognizing just the literals the closed evaluations
use. -/
def testParse : ParseFns where
  parseF64 := fun s => if s = str "52" then some 52 else none
  parseNat := fun s =>
    if s = str "32" then some 32 else if s = str "99" then some 99 else none
  parseInt := fun _ => none

/-- A default `ParsedParameters` record, used as the fallback of `exOk`. -/
def dfltPP : ParsedParameters where
  name := str "unknown"
  ellps := (testEllipsoid, testEllipsoid)
  lat := Quad.zero
  lon := Quad.zero
  x := Quad.zero
  y := Quad.zero
  k := Quad.zero
  boolean := []
  natural := []
  integer := []
  real := []
  series := []
  text := []
  fourierCoefficients := []
  ignored := []

/-- Extract the payload of a successful result, with a fallback. -/
def exOk (d : ParsedParameters) : Except Error ParsedParameters → ParsedParameters
  | .ok p => p
  | .error _ => d

/-- The all-zero coordinate. -/
def origin : Coord := ⟨Fp.num 0, Fp.num 0, Fp.num 0, Fp.num 0⟩

/-- A projected point far outside the toy laea domain fixture. -/
def c34 : Coord := ⟨Fp.num 3, Fp.num 4, Fp.num 0, Fp.num 0⟩

/-- Laea parameters with all inverse-kernel invariants present and a tiny
`rq`, so that `c34` violates the asin-argument domain guard. -/
def pLaeaDomain : ParsedParameters :=
  { dfltPP with
    real := [(str "xi_0", Fp.num 0), (str "qp", Fp.num 1),
      (str "rq", Fp.num (1/10)), (str "d", Fp.num 1)]
    fourierCoefficients := [(str "authalic", ⟨[], []⟩)] }

/-- Laea parameters in the north-polar aspect whose `authalic` coefficients
are missing while all four precomputed reals are present. -/
def pLaeaNoAuthalic : ParsedParameters :=
  { dfltPP with
    real := [(str "xi_0", Fp.num 0), (str "qp", Fp.num 1),
      (str "rq", Fp.num 1), (str "d", Fp.num 1)]
    boolean := [str "north_polar"]
    fourierCoefficients := [] }

/-- The step-local definition list for the C10 map-landing scenario. -/
def lC10 : List (Str × Str) :=
  [(str "name", str "tmerc"), (str "ellps", str "intl"), (str "lat_0", str "52")]

/-- The step-local definition list of the utm counterexample: an in-range
zone together with a malformed flag value. -/
def lUtmBadFlag : List (Str × Str) :=
  [(str "name", str "utm"), (str "zone", str "32"), (str "inv", str "banana")]

/-- The step-local definition list of the utm witness. -/
def lUtmOk : List (Str × Str) :=
  [(str "name", str "utm"), (str "zone", str "32")]

/-! ## Helper lemmas -/

/-- Unfolding lemma for `Fp` addition on numbers. -/
@[simp] theorem Fp.num_add (a b : ℚ) : Fp.num a + Fp.num b = Fp.num (a + b) := rfl

/-- Unfolding lemma for `Fp` subtraction on numbers. -/
@[simp] theorem Fp.num_sub (a b : ℚ) : Fp.num a - Fp.num b = Fp.num (a - b) := rfl

/-- Unfolding lemma for `Fp` multiplication on numbers. -/
@[simp] theorem Fp.num_mul (a b : ℚ) : Fp.num a * Fp.num b = Fp.num (a * b) := rfl

/-- Unfolding lemma for `Fp` division on numbers. -/
@[simp] theorem Fp.num_div (a b : ℚ) :
    Fp.num a / Fp.num b = if b = 0 then Fp.nan else Fp.num (a / b) := rfl

/-- Unfolding lemma for `Fp` negation on numbers. -/
@[simp] theorem Fp.num_neg (a : ℚ) : Fp.neg (Fp.num a) = Fp.num (-a) := rfl

/-- Unfolding lemma for `Fp` absolute value on numbers. -/
@[simp] theorem Fp.num_fabs (a : ℚ) : Fp.fabs (Fp.num a) = Fp.num |a| := rfl

/-- Unfolding lemma for the `Fp` strict order on numbers. -/
@[simp] theorem Fp.num_flt (a b : ℚ) :
    Fp.flt (Fp.num a) (Fp.num b) = decide (a < b) := rfl

/-- Unfolding lemma for the flipped `Fp` strict order. -/
@[simp] theorem Fp.fgt_eq (x y : Fp) : Fp.fgt x y = Fp.flt y x := rfl

/-- Injectivity of the number embedding into `Fp`. -/
@[simp] theorem Fp.num_inj (a b : ℚ) : (Fp.num a = Fp.num b) = (a = b) := by
  simp only [Fp.num.injEq]

/-- Batch application is pointwise: the success count is the number of
points the loop body counts, and the output list is the pointwise image. -/
theorem applyBatch_eq (f : Coord → Coord × Bool) (l : List Coord) :
    applyBatch f l = (l.countP (fun c => (f c).2), l.map (fun c => (f c).1)) := by
  induction l with
  | nil => rfl
  | cons c rest ih =>
    simp only [applyBatch, ih, List.countP_cons, List.map_cons, Prod.mk.injEq]
    cases h : (f c).2
    · simp [h]
    · simp [h]
      omega

/-- The fixed slots of a successful `ParsedParameters.new` are always the
built-in defaults: the record is constructed from constants after the
schema loop. -/
theorem ppNew_fixed_slots {P : ParseFns} {dE : Ellipsoid}
    {g l : List (Str × Str)} {gamut : List OpParameter} {p : ParsedParameters}
    (h : ParsedParameters.new P dE g l gamut = .ok p) :
    p.ellps = (dE, dE) ∧ p.lat = Quad.zero ∧ p.lon = Quad.zero ∧
      p.x = Quad.zero ∧ p.y = Quad.zero ∧ p.k = Quad.zero := by
  unfold ParsedParameters.new at h
  cases hm : ppLoop P g l gamut ⟨[], [], [], [], [], []⟩ with
  | error e => rw [hm] at h; simp at h
  | ok m =>
    rw [hm] at h
    injection h with h
    subst h
    exact ⟨rfl, rfl, rfl, rfl, rfl, rfl⟩

/-! ## Theorems for the claims -/

/-- C9, counterexample: on the text `[cart` the code returns `false`
(the bracket guard short-circuits), while the claim wording - under which an
unmatched leading bracket still falls to the first-token rule - returns
`true`.  This is the very case tested in the repository
(`assert!(!Context::is_gys("[cart"))`). -/
theorem isGys_claim_counterexample :
    isGys (str "[cart") = false ∧ isGysClaim (str "[cart") = true :=
  ⟨rfl, rfl⟩

/-- C9, amended: the detector agrees everywhere with the guarded wording in
which a text starting with `[` (or ending with `]`) is classified solely by
the matched-bracket test, and only texts with no bracket marker and no pipe
marker are classified by the first-token rule. -/
theorem isGys_eq_amended (s : Str) : isGys s = isGysAmended s := by
  unfold isGys isGysAmended
  cases h1 : hasSub (str " | ") s <;>
    cases h2 : leadsWith (str "|") s <;>
      cases h3 : trailsWith (str "|") s <;>
        cases h4 : leadsWith (str "[") s <;>
          cases h5 : trailsWith (str "]") s <;>
            simp [h1, h2, h3, h4, h5]

/-- Closed instance of `isGys_eq_amended`, evaluating both sides on a
concrete text. -/
theorem isGys_eq_amended_witness :
    isGys (str "cart ellps:intl") = isGysAmended (str "cart ellps:intl") :=
  isGys_eq_amended (str "cart ellps:intl")

/-- C8: on the cyclic chain `a: ^b, b: ^a` the `OperatorArgs::value` path
exceeds every recursion depth (the Rust original recurses unboundedly and
overflows the stack), while the `GysArgs::value` path terminates with a
syntax error after consuming its finite haystack.  The claim - termination
in both paths - therefore fails on the `OperatorArgs` path. -/
theorem indirection_cycle_unbounded :
    (∀ fuel, valueRecursiveSearch cyclicArgs [] fuel (str "a") = none) ∧
    GysArgs.value ⟨[], cyclicArgs⟩ (str "a") =
      .error (.syntaxErr (str "Incomplete definition for a")) := by
  constructor
  · have h : ∀ fuel, valueRecursiveSearch cyclicArgs [] fuel (str "a") = none ∧
        valueRecursiveSearch cyclicArgs [] fuel (str "b") = none := by
      intro fuel
      induction fuel with
      | zero => exact ⟨rfl, rfl⟩
      | succ n ih =>
        refine ⟨?_, ?_⟩
        · show valueRecursiveSearch cyclicArgs [] n (str "b") = none
          exact ih.2
        · show valueRecursiveSearch cyclicArgs [] n (str "a") = none
          exact ih.1
    exact fun fuel => (h fuel).1
  · rfl

/-- Closed instance of the C8 theorem at a concrete depth. -/
theorem indirection_cycle_unbounded_witness :
    valueRecursiveSearch cyclicArgs [] 5 (str "a") = none :=
  indirection_cycle_unbounded.1 5

/-- C6, counterexample: coercing the raw value `false` for a schema `Flag`
entry is a `BadParam` error in `ParsedParameters::new`, not a false flag;
and in the `GysArgs::flag` path a raw value other than case-insensitive
`false` (here `banana`) coerces to `true`, not `false`. -/
theorem flag_coercion_counterexample :
    ParsedParameters.new testParse testEllipsoid [] [(str "f", str "false")]
        [.Flag (str "f")] = .error (.badParam (str "f") (str "false")) ∧
    GysArgs.flag ⟨[], [(str "f", str "banana")]⟩ (str "f") = .ok true :=
  ⟨rfl, rfl⟩

/-- C6, amended: in the `ParsedParameters` path a found raw flag value
coerces to a set flag when it is empty or case-insensitively `true`, and any
other value (including `false`) is a `BadParam` error, while an absent key
leaves the flag unset; in the `GysArgs::flag` path a found value is true
unless it is case-insensitively `false`, and an absent key is false. -/
theorem flag_coercion_characterization :
    (∀ (P : ParseFns) (dE : Ellipsoid) (g l : List (Str × Str)) (key v : Str),
      chase g l key = .ok (some v) →
      ((v = [] ∨ toLowerStr v = str "true") →
        ∃ p, ParsedParameters.new P dE g l [.Flag key] = .ok p ∧
          p.booleanFlag key = true) ∧
      (¬(v = [] ∨ toLowerStr v = str "true") →
        ParsedParameters.new P dE g l [.Flag key] = .error (.badParam key v))) ∧
    (∀ (P : ParseFns) (dE : Ellipsoid) (g l : List (Str × Str)) (key : Str),
      chase g l key = .ok none →
      ∃ p, ParsedParameters.new P dE g l [.Flag key] = .ok p ∧
        p.booleanFlag key = false) ∧
    (∀ (a : GysArgs) (key v : Str), a.value key = .ok (some v) →
      a.flag key = .ok (if toLowerStr v = str "false" then false else true)) ∧
    (∀ (a : GysArgs) (key : Str), a.value key = .ok none →
      a.flag key = .ok false) := by
  refine ⟨?_, ?_, ?_, ?_⟩
  · intro P dE g l key v hv
    constructor
    · intro hor
      have hpp : ppLoop P g l [.Flag key] ⟨[], [], [], [], [], []⟩ =
          .ok ⟨[key], [], [], [], [], []⟩ := by
        simp only [ppLoop, hv]
        rw [if_pos hor]
      have hnew : ParsedParameters.new P dE g l [.Flag key] =
          .ok { name := (alookup (str "name") l).getD (str "unknown"),
                ellps := (dE, dE), lat := Quad.zero, lon := Quad.zero,
                x := Quad.zero, y := Quad.zero, k := Quad.zero,
                boolean := [key], natural := [], integer := [], real := [],
                series := [], text := [], fourierCoefficients := [],
                ignored := l.map Prod.fst } := by
        unfold ParsedParameters.new
        rw [hpp]
      exact ⟨_, hnew, by simp [ParsedParameters.booleanFlag, memStr]⟩
    · intro hnor
      have hpp : ppLoop P g l [.Flag key] ⟨[], [], [], [], [], []⟩ =
          .error (.badParam key v) := by
        simp only [ppLoop, hv]
        rw [if_neg hnor]
      unfold ParsedParameters.new
      rw [hpp]
  · intro P dE g l key hv
    have hpp : ppLoop P g l [.Flag key] ⟨[], [], [], [], [], []⟩ =
        .ok ⟨[], [], [], [], [], []⟩ := by
      simp only [ppLoop, hv]
    have hnew : ParsedParameters.new P dE g l [.Flag key] =
        .ok { name := (alookup (str "name") l).getD (str "unknown"),
              ellps := (dE, dE), lat := Quad.zero, lon := Quad.zero,
              x := Quad.zero, y := Quad.zero, k := Quad.zero,
              boolean := [], natural := [], integer := [], real := [],
              series := [], text := [], fourierCoefficients := [],
              ignored := l.map Prod.fst } := by
      unfold ParsedParameters.new
      rw [hpp]
    exact ⟨_, hnew, by simp [ParsedParameters.booleanFlag, memStr]⟩
  · intro a key v hv
    unfold GysArgs.flag
    rw [hv]
  · intro a key hv
    unfold GysArgs.flag
    rw [hv]

/-- Closed instance of the C6 amended theorem: a bare (empty-valued) flag
key coerces to a set flag. -/
theorem flag_coercion_characterization_witness :
    ∃ p, ParsedParameters.new testParse testEllipsoid [] [(str "f", [])]
        [.Flag (str "f")] = .ok p ∧ p.booleanFlag (str "f") = true :=
  (flag_coercion_characterization.1 testParse testEllipsoid [] [(str "f", [])]
    (str "f") [] rfl).1 (Or.inl rfl)

/-- C7, counterexample: with a schema declaring `zone` and a definition
supplying exactly `zone:32`, the construction succeeds and `ignored()`
nevertheless contains the schema-declared key `zone`. -/
theorem ignored_contains_declared_key_counterexample :
    Except.map (fun p => p.ignored)
      (ParsedParameters.new testParse testEllipsoid []
        [(str "zone", str "32")] [.Natural (str "zone") none]) =
      .ok [str "zone"] ∧
    Except.map (fun p => memStr (str "zone") p.ignored)
      (ParsedParameters.new testParse testEllipsoid []
        [(str "zone", str "32")] [.Natural (str "zone") none]) = .ok true :=
  ⟨rfl, rfl⟩

/-- C7, amended: after a successful `ParsedParameters::new`, `ignored()` is
the key list of the caller's entire step-local definition - schema-declared
keys included - because the source collects all the local keys without
removing the ones the gamut consumed. -/
theorem ignored_is_every_local_key (P : ParseFns) (dE : Ellipsoid)
    (g l : List (Str × Str)) (gamut : List OpParameter) (p : ParsedParameters)
    (h : ParsedParameters.new P dE g l gamut = .ok p) :
    p.ignored = l.map Prod.fst := by
  unfold ParsedParameters.new at h
  cases hm : ppLoop P g l gamut ⟨[], [], [], [], [], []⟩ with
  | error e => rw [hm] at h; simp at h
  | ok m =>
    rw [hm] at h
    injection h with h
    subst h
    rfl

/-- Closed instance of the C7 amended theorem. -/
theorem ignored_is_every_local_key_witness :
    (exOk dfltPP (ParsedParameters.new testParse testEllipsoid []
      [(str "zone", str "32")] [.Natural (str "zone") none])).ignored =
      [str "zone"] :=
  ignored_is_every_local_key testParse testEllipsoid []
    [(str "zone", str "32")] [.Natural (str "zone") none] _ rfl

/-- C10: `ParsedParameters::new` always returns the fixed slots at their
built-in defaults - the ellipsoid pair is the default ellipsoid and the lat,
lon, x, y, k arrays are zero - regardless of the definition; caller-supplied
`ellps` and `lat_0` values land only in the open-keyed text and real maps,
as shown on a definition supplying name, ellps and lat_0. -/
theorem fixed_slots_are_defaults :
    (∀ (P : ParseFns) (dE : Ellipsoid) (g l : List (Str × Str))
      (gamut : List OpParameter) (p : ParsedParameters),
      ParsedParameters.new P dE g l gamut = .ok p →
      p.ellps = (dE, dE) ∧ p.lat = Quad.zero ∧ p.lon = Quad.zero ∧
        p.x = Quad.zero ∧ p.y = Quad.zero ∧ p.k = Quad.zero) ∧
    (∀ (P : ParseFns) (dE : Ellipsoid) (q : ℚ) (p : ParsedParameters),
      P.parseF64 (str "52") = some q →
      ParsedParameters.new P dE [] lC10 tmercGamut = .ok p →
      alookup (str "ellps") p.text = some (str "intl") ∧
        alookup (str "lat_0") p.real = some (Fp.num q) ∧
        p.ellps = (dE, dE) ∧ p.lat = Quad.zero) := by
  constructor
  · intro P dE g l gamut p h
    exact ppNew_fixed_slots h
  · intro P dE q p hq h
    have h_inv : chase [] lC10 (str "inv") = .ok none := rfl
    have h_ellps : chase [] lC10 (str "ellps") = .ok (some (str "intl")) := rfl
    have h_lat0 : chase [] lC10 (str "lat_0") = .ok (some (str "52")) := rfl
    have h_lon0 : chase [] lC10 (str "lon_0") = .ok none := rfl
    have h_x0 : chase [] lC10 (str "x_0") = .ok none := rfl
    have h_y0 : chase [] lC10 (str "y_0") = .ok none := rfl
    have h_k0 : chase [] lC10 (str "k_0") = .ok none := rfl
    have hpp : ppLoop P [] lC10 tmercGamut ⟨[], [], [], [], [], []⟩ =
        .ok ⟨[], [], [],
          [(str "k_0", Fp.num 1), (str "y_0", Fp.num 0), (str "x_0", Fp.num 0),
            (str "lon_0", Fp.num 0), (str "lat_0", Fp.num q)],
          [], [(str "ellps", str "intl")]⟩ := by
      simp only [tmercGamut, ppLoop, h_inv, h_ellps, h_lat0, h_lon0, h_x0,
        h_y0, h_k0, hq]
    unfold ParsedParameters.new at h
    rw [hpp] at h
    injection h with h
    subst h
    refine ⟨rfl, ?_, rfl, rfl⟩
    simp [alookup, str]

/-- Closed instance of the C10 theorem: a definition supplying name, ellps
and lat_0 leaves the fixed slots at their defaults while the supplied values
land in the text and real maps. -/
theorem fixed_slots_are_defaults_witness :
    alookup (str "ellps")
      (exOk dfltPP (ParsedParameters.new testParse testEllipsoid [] lC10
        tmercGamut)).text = some (str "intl") ∧
    alookup (str "lat_0")
      (exOk dfltPP (ParsedParameters.new testParse testEllipsoid [] lC10
        tmercGamut)).real = some (Fp.num 52) ∧
    (exOk dfltPP (ParsedParameters.new testParse testEllipsoid [] lC10
      tmercGamut)).ellps = (testEllipsoid, testEllipsoid) ∧
    (exOk dfltPP (ParsedParameters.new testParse testEllipsoid [] lC10
      tmercGamut)).lat = Quad.zero :=
  fixed_slots_are_defaults.2 testParse testEllipsoid 52
    (exOk dfltPP (ParsedParameters.new testParse testEllipsoid [] lC10
      tmercGamut)) rfl rfl

/-- A tmerc parameter record with all four precomputed invariants present,
used for closed evaluations. -/
def pTmercReady : ParsedParameters :=
  { dfltPP with
    real := [(str "scaled_radius", Fp.num 1), (str "zb", Fp.num 0)]
    fourierCoefficients := [(str "conformal", ⟨[], []⟩), (str "tm", ⟨[], []⟩)] }

/-- C4: in both tmerc kernels (invariants present), the batch returns Ok
with the pointwise image and the count of in-domain points, and the loop
body writes NaN into the first two slots and reports no success exactly for
the coordinates whose η exceeds 2.623395162778 in absolute value, while
every other coordinate is processed and counted. -/
theorem tmerc_eta_guard :
    (∀ (O : MathOps) (p : ParsedParameters) (ops : List Coord)
      (conformal tm : FourierCoefficients) (qs zb : Fp),
      alookup (str "conformal") p.fourierCoefficients = some conformal →
      alookup (str "tm") p.fourierCoefficients = some tm →
      alookup (str "scaled_radius") p.real = some qs →
      alookup (str "zb") p.real = some zb →
      tmercFwd O p ops = .ok
        (ops.countP (fun c => !(Fp.fgt (Fp.fabs (tmercFwdLatLon O p.ellps.1
            conformal tm p.lat.s0 p.lon.s0 c).2) tmercEtaMax)),
         ops.map (fun c => (tmercFwdPoint O p.ellps.1 conformal tm qs zb
            p.lat.s0 p.lon.s0 p.x.s0 c).1))) ∧
    (∀ (O : MathOps) (e : Ellipsoid) (conformal tm : FourierCoefficients)
      (qs zb lat0 lon0 x0 : Fp) (c : Coord),
      (Fp.fgt (Fp.fabs (tmercFwdLatLon O e conformal tm lat0 lon0 c).2)
          tmercEtaMax = true →
        tmercFwdPoint O e conformal tm qs zb lat0 lon0 x0 c =
          ({ c with c0 := Fp.nan, c1 := Fp.nan }, false)) ∧
      (Fp.fgt (Fp.fabs (tmercFwdLatLon O e conformal tm lat0 lon0 c).2)
          tmercEtaMax = false →
        (tmercFwdPoint O e conformal tm qs zb lat0 lon0 x0 c).2 = true)) ∧
    (∀ (O : MathOps) (p : ParsedParameters) (ops : List Coord)
      (conformal tm : FourierCoefficients) (qs zb : Fp),
      alookup (str "conformal") p.fourierCoefficients = some conformal →
      alookup (str "tm") p.fourierCoefficients = some tm →
      alookup (str "scaled_radius") p.real = some qs →
      alookup (str "zb") p.real = some zb →
      tmercInv O p ops = .ok
        (ops.countP (fun c =>
          !(Fp.fgt (Fp.fabs (tmercInvEta qs p.x.s0 c)) tmercEtaMax)),
         ops.map (fun c => (tmercInvPoint O p.ellps.1 conformal tm qs zb
            p.lon.s0 p.x.s0 c).1))) ∧
    (∀ (O : MathOps) (e : Ellipsoid) (conformal tm : FourierCoefficients)
      (qs zb lon0 x0 : Fp) (c : Coord),
      (Fp.fgt (Fp.fabs (tmercInvEta qs x0 c)) tmercEtaMax = true →
        tmercInvPoint O e conformal tm qs zb lon0 x0 c =
          ({ c with c0 := Fp.nan, c1 := Fp.nan }, false)) ∧
      (Fp.fgt (Fp.fabs (tmercInvEta qs x0 c)) tmercEtaMax = false →
        (tmercInvPoint O e conformal tm qs zb lon0 x0 c).2 = true)) := by
  have hfwd2 : ∀ (O : MathOps) (e : Ellipsoid)
      (conformal tm : FourierCoefficients) (qs zb lat0 lon0 x0 : Fp)
      (c : Coord),
      (tmercFwdPoint O e conformal tm qs zb lat0 lon0 x0 c).2 =
        !(Fp.fgt (Fp.fabs (tmercFwdLatLon O e conformal tm lat0 lon0 c).2)
          tmercEtaMax) := by
    intro O e conformal tm qs zb lat0 lon0 x0 c
    unfold tmercFwdPoint
    cases hg : Fp.flt tmercEtaMax
        (Fp.fabs (tmercFwdLatLon O e conformal tm lat0 lon0 c).2) <;>
      simp [Fp.fgt_eq, hg]
  have hinv2 : ∀ (O : MathOps) (e : Ellipsoid)
      (conformal tm : FourierCoefficients) (qs zb lon0 x0 : Fp) (c : Coord),
      (tmercInvPoint O e conformal tm qs zb lon0 x0 c).2 =
        !(Fp.fgt (Fp.fabs (tmercInvEta qs x0 c)) tmercEtaMax) := by
    intro O e conformal tm qs zb lon0 x0 c
    unfold tmercInvPoint
    cases hg : Fp.flt tmercEtaMax (Fp.fabs (tmercInvEta qs x0 c)) <;>
      simp [Fp.fgt_eq, hg]
  refine ⟨?_, ?_, ?_, ?_⟩
  · intro O p ops conformal tm qs zb h1 h2 h3 h4
    simp only [tmercFwd, h1, h2, h3, h4, applyBatch_eq]
    refine congrArg Except.ok (Prod.ext ?_ rfl)
    exact List.countP_congr fun c _ => by
      rw [hfwd2 O p.ellps.1 conformal tm qs zb p.lat.s0 p.lon.s0 p.x.s0 c]
  · intro O e conformal tm qs zb lat0 lon0 x0 c
    constructor
    · intro hg
      rw [Fp.fgt_eq] at hg
      unfold tmercFwdPoint
      simp [Fp.fgt_eq, hg]
    · intro hg
      rw [hfwd2, hg]
      rfl
  · intro O p ops conformal tm qs zb h1 h2 h3 h4
    simp only [tmercInv, h1, h2, h3, h4, applyBatch_eq]
    refine congrArg Except.ok (Prod.ext ?_ rfl)
    exact List.countP_congr fun c _ => by
      rw [hinv2 O p.ellps.1 conformal tm qs zb p.lon.s0 p.x.s0 c]
  · intro O e conformal tm qs zb lon0 x0 c
    constructor
    · intro hg
      rw [Fp.fgt_eq] at hg
      unfold tmercInvPoint
      simp [Fp.fgt_eq, hg]
    · intro hg
      rw [hinv2, hg]
      rfl

/-- Closed instance of the C4 theorem on a ready tmerc parameter record and
a one-point batch. -/
theorem tmerc_eta_guard_witness :
    tmercFwd testOps pTmercReady [origin] = .ok
      ([origin].countP (fun c => !(Fp.fgt (Fp.fabs (tmercFwdLatLon testOps
          pTmercReady.ellps.1 ⟨[], []⟩ ⟨[], []⟩ pTmercReady.lat.s0
          pTmercReady.lon.s0 c).2) tmercEtaMax)),
       [origin].map (fun c => (tmercFwdPoint testOps pTmercReady.ellps.1
          ⟨[], []⟩ ⟨[], []⟩ (Fp.num 1) (Fp.num 0) pTmercReady.lat.s0
          pTmercReady.lon.s0 pTmercReady.x.s0 c).1)) :=
  tmerc_eta_guard.1 testOps pTmercReady [origin] ⟨[], []⟩ ⟨[], []⟩
    (Fp.num 1) (Fp.num 0) rfl rfl rfl rfl

/-- C2, counterexample: an out-of-domain coordinate in the inverse laea
kernel (its asin argument exceeds 1 in absolute value) is skipped with its
slots left untouched - no NaN is written - and the success count stays 0. -/
theorem laea_inv_skip_counterexample :
    Fp.fgt (Fp.fabs (laeaInvAsinArg testOps (Fp.num (1/10)) (Fp.num 1)
      (Fp.num 0) (Fp.num 0) c34)) (Fp.num 1) = true ∧
    laeaInv testOps pLaeaDomain [c34] = .ok (0, [c34]) ∧
    c34.c0 ≠ Fp.nan ∧ c34.c1 ≠ Fp.nan := by
  refine ⟨?_, ?_, by decide, by decide⟩
  · norm_num [laeaInvAsinArg, laeaInvRho, testOps, c34]
  · have hx : pLaeaDomain.realAcc (str "xi_0") = .ok (Fp.num 0) := rfl
    have hr : pLaeaDomain.realAcc (str "rq") = .ok (Fp.num (1/10)) := rfl
    have hd : pLaeaDomain.realAcc (str "d") = .ok (Fp.num 1) := rfl
    have ha : pLaeaDomain.fourierAcc (str "authalic") = .ok ⟨[], []⟩ := rfl
    have hnp : pLaeaDomain.booleanFlag (str "north_polar") = false := rfl
    have hsp : pLaeaDomain.booleanFlag (str "south_polar") = false := rfl
    simp only [laeaInv, hx, hr, hd, ha, hnp, hsp]
    norm_num [applyBatch, laeaInvPoint, laeaInvRho, laeaInvAsinArg, testOps,
      pLaeaDomain, dfltPP, testEllipsoid, EPS10, c34, Quad.zero]

/-- C2, amended: data-driven failures never raise - all four kernels return
Ok on every batch - and an out-of-domain coordinate is skipped without
incrementing the success count while the remaining coordinates are still
processed in order; the tmerc kernels write NaN into the skipped
coordinate's first two slots, whereas the inverse laea kernel leaves the
skipped coordinate entirely unmodified. -/
theorem apply_soft_failure_semantics :
    (∀ O p ops, ∃ r, tmercFwd O p ops = .ok r) ∧
    (∀ O p ops, ∃ r, tmercInv O p ops = .ok r) ∧
    (∀ O p ops, ∃ r, laeaFwd O p ops = .ok r) ∧
    (∀ O p ops, ∃ r, laeaInv O p ops = .ok r) ∧
    (∀ (O : MathOps) (e : Ellipsoid) (authalic : FourierCoefficients)
      (rq d sxi cxi lat0 lon0 x0 y0 : Fp) (c : Coord),
      Fp.flt (laeaInvRho O d x0 y0 c) EPS10 = false →
      Fp.fgt (Fp.fabs (laeaInvAsinArg O rq d x0 y0 c)) (Fp.num 1) = true →
      laeaInvPoint O e authalic rq d sxi cxi lat0 lon0 x0 y0 c = (c, false)) ∧
    (∀ (O : MathOps) (p : ParsedParameters) (ops : List Coord)
      (xi0 rq d : Fp) (authalic : FourierCoefficients),
      p.realAcc (str "xi_0") = .ok xi0 →
      p.realAcc (str "rq") = .ok rq →
      p.realAcc (str "d") = .ok d →
      p.fourierAcc (str "authalic") = .ok authalic →
      p.booleanFlag (str "north_polar") = false →
      p.booleanFlag (str "south_polar") = false →
      laeaInv O p ops = .ok
        (ops.countP (fun c => (laeaInvPoint O p.ellps.1 authalic rq d
            (O.sinCos xi0).1 (O.sinCos xi0).2
            p.lat.s0 p.lon.s0 p.x.s0 p.y.s0 c).2),
         ops.map (fun c => (laeaInvPoint O p.ellps.1 authalic rq d
            (O.sinCos xi0).1 (O.sinCos xi0).2
            p.lat.s0 p.lon.s0 p.x.s0 p.y.s0 c).1))) ∧
    (∀ (O : MathOps) (e : Ellipsoid) (conformal tm : FourierCoefficients)
      (qs zb lat0 lon0 x0 : Fp) (c : Coord),
      Fp.fgt (Fp.fabs (tmercFwdLatLon O e conformal tm lat0 lon0 c).2)
          tmercEtaMax = true →
      tmercFwdPoint O e conformal tm qs zb lat0 lon0 x0 c =
        ({ c with c0 := Fp.nan, c1 := Fp.nan }, false)) ∧
    (∀ (O : MathOps) (e : Ellipsoid) (conformal tm : FourierCoefficients)
      (qs zb lon0 x0 : Fp) (c : Coord),
      Fp.fgt (Fp.fabs (tmercInvEta qs x0 c)) tmercEtaMax = true →
      tmercInvPoint O e conformal tm qs zb lon0 x0 c =
        ({ c with c0 := Fp.nan, c1 := Fp.nan }, false)) := by
  refine ⟨?_, ?_, ?_, ?_, ?_, ?_, ?_, ?_⟩
  · intro O p ops
    unfold tmercFwd
    cases h1 : alookup (str "conformal") p.fourierCoefficients with
    | none => exact ⟨_, rfl⟩
    | some conformal =>
      cases h2 : alookup (str "tm") p.fourierCoefficients with
      | none => exact ⟨_, rfl⟩
      | some tm =>
        cases h3 : alookup (str "scaled_radius") p.real with
        | none => exact ⟨_, rfl⟩
        | some qs =>
          cases h4 : alookup (str "zb") p.real with
          | none => exact ⟨_, rfl⟩
          | some zb => exact ⟨_, rfl⟩
  · intro O p ops
    unfold tmercInv
    cases h1 : alookup (str "conformal") p.fourierCoefficients with
    | none => exact ⟨_, rfl⟩
    | some conformal =>
      cases h2 : alookup (str "tm") p.fourierCoefficients with
      | none => exact ⟨_, rfl⟩
      | some tm =>
        cases h3 : alookup (str "scaled_radius") p.real with
        | none => exact ⟨_, rfl⟩
        | some qs =>
          cases h4 : alookup (str "zb") p.real with
          | none => exact ⟨_, rfl⟩
          | some zb => exact ⟨_, rfl⟩
  · intro O p ops
    unfold laeaFwd
    cases h1 : p.realAcc (str "xi_0") with
    | error e => exact ⟨_, rfl⟩
    | ok xi0 =>
      cases h2 : p.realAcc (str "qp") with
      | error e => exact ⟨_, rfl⟩
      | ok qp =>
        cases h3 : p.realAcc (str "rq") with
        | error e => exact ⟨_, rfl⟩
        | ok rq =>
          cases h4 : p.realAcc (str "d") with
          | error e => exact ⟨_, rfl⟩
          | ok d =>
            dsimp only
            split
            · exact ⟨_, rfl⟩
            · exact ⟨_, rfl⟩
  · intro O p ops
    unfold laeaInv
    cases h1 : p.realAcc (str "xi_0") with
    | error e => exact ⟨_, rfl⟩
    | ok xi0 =>
      cases h2 : p.realAcc (str "rq") with
      | error e => exact ⟨_, rfl⟩
      | ok rq =>
        cases h3 : p.realAcc (str "d") with
        | error e => exact ⟨_, rfl⟩
        | ok d =>
          cases h4 : p.fourierAcc (str "authalic") with
          | error e => exact ⟨_, rfl⟩
          | ok authalic =>
            dsimp only
            split
            · exact ⟨_, rfl⟩
            · exact ⟨_, rfl⟩
  · intro O e authalic rq d sxi cxi lat0 lon0 x0 y0 c h1 h2
    rw [Fp.fgt_eq] at h2
    unfold laeaInvPoint
    simp [Fp.fgt_eq, h1, h2]
  · intro O p ops xi0 rq d authalic hxi hrq hd hau hnp hsp
    simp only [laeaInv, hxi, hrq, hd, hau, hnp, hsp, Bool.or_self,
      Bool.false_eq_true, if_false, applyBatch_eq]
  · intro O e conformal tm qs zb lat0 lon0 x0 c hg
    rw [Fp.fgt_eq] at hg
    unfold tmercFwdPoint
    simp [Fp.fgt_eq, hg]
  · intro O e conformal tm qs zb lon0 x0 c hg
    rw [Fp.fgt_eq] at hg
    unfold tmercInvPoint
    simp [Fp.fgt_eq, hg]

/-- Closed instance of the C2 amended theorem: the out-of-domain skip of the
inverse laea loop body at a concrete point. -/
theorem apply_soft_failure_semantics_witness :
    laeaInvPoint testOps testEllipsoid ⟨[], []⟩ (Fp.num (1/10)) (Fp.num 1)
      (Fp.num 0) (Fp.num 1) (Fp.num 0) (Fp.num 0) (Fp.num 0) (Fp.num 0) c34 =
      (c34, false) :=
  apply_soft_failure_semantics.2.2.2.2.1 testOps testEllipsoid ⟨[], []⟩
    (Fp.num (1/10)) (Fp.num 1) (Fp.num 0) (Fp.num 1) (Fp.num 0) (Fp.num 0)
    (Fp.num 0) (Fp.num 0) c34
    (by norm_num [laeaInvRho, testOps, c34, EPS10])
    (by norm_num [laeaInvAsinArg, laeaInvRho, testOps, c34])

/-- C5, counterexample: with the `authalic` coefficients missing but all
four precomputed reals present, the forward laea kernel does not soft-fail:
it processes and modifies the coordinate and reports one success, because
the forward kernel never reads the authalic coefficients. -/
theorem missing_invariant_counterexample :
    alookup (str "authalic") pLaeaNoAuthalic.fourierCoefficients = none ∧
    laeaFwd testOps pLaeaNoAuthalic [origin] =
      .ok (1, [⟨Fp.num 0, Fp.num (-2), Fp.num 0, Fp.num 0⟩]) := by
  refine ⟨rfl, ?_⟩
  have hx : pLaeaNoAuthalic.realAcc (str "xi_0") = .ok (Fp.num 0) := rfl
  have hqp : pLaeaNoAuthalic.realAcc (str "qp") = .ok (Fp.num 1) := rfl
  have hr : pLaeaNoAuthalic.realAcc (str "rq") = .ok (Fp.num 1) := rfl
  have hd : pLaeaNoAuthalic.realAcc (str "d") = .ok (Fp.num 1) := rfl
  have hnp : pLaeaNoAuthalic.booleanFlag (str "north_polar") = true := rfl
  have hsp : pLaeaNoAuthalic.booleanFlag (str "south_polar") = false := rfl
  simp only [laeaFwd, hx, hqp, hr, hd, hnp, hsp]
  norm_num [applyBatch, laeaFwdPolarPoint, testOps, pLaeaNoAuthalic, dfltPP,
    testEllipsoid, origin, Quad.zero]

/-- C5, amended: each kernel soft-fails - returns Ok with success count 0
and the batch unmodified - when one of the precomputed invariants it itself
reads is missing: both tmerc kernels read conformal, tm, scaled_radius and
zb; the forward laea kernel reads xi_0, qp, rq and d (not the authalic
coefficients); the inverse laea kernel reads xi_0, rq, d and the authalic
coefficients (not qp). -/
theorem missing_invariant_soft_failure :
    (∀ O p ops,
      (alookup (str "conformal") p.fourierCoefficients = none ∨
       alookup (str "tm") p.fourierCoefficients = none ∨
       alookup (str "scaled_radius") p.real = none ∨
       alookup (str "zb") p.real = none) →
      tmercFwd O p ops = .ok (0, ops) ∧ tmercInv O p ops = .ok (0, ops)) ∧
    (∀ O p ops,
      (alookup (str "xi_0") p.real = none ∨
       alookup (str "qp") p.real = none ∨
       alookup (str "rq") p.real = none ∨
       alookup (str "d") p.real = none) →
      laeaFwd O p ops = .ok (0, ops)) ∧
    (∀ O p ops,
      (alookup (str "xi_0") p.real = none ∨
       alookup (str "rq") p.real = none ∨
       alookup (str "d") p.real = none ∨
       alookup (str "authalic") p.fourierCoefficients = none) →
      laeaInv O p ops = .ok (0, ops)) := by
  refine ⟨?_, ?_, ?_⟩
  · intro O p ops h
    constructor
    · rcases h with h | h | h | h
      · simp [tmercFwd, h]
      · cases h1 : alookup (str "conformal") p.fourierCoefficients <;>
          simp [tmercFwd, h1, h]
      · cases h1 : alookup (str "conformal") p.fourierCoefficients <;>
          cases h2 : alookup (str "tm") p.fourierCoefficients <;>
            simp [tmercFwd, h1, h2, h]
      · cases h1 : alookup (str "conformal") p.fourierCoefficients <;>
          cases h2 : alookup (str "tm") p.fourierCoefficients <;>
            cases h3 : alookup (str "scaled_radius") p.real <;>
              simp [tmercFwd, h1, h2, h3, h]
    · rcases h with h | h | h | h
      · simp [tmercInv, h]
      · cases h1 : alookup (str "conformal") p.fourierCoefficients <;>
          simp [tmercInv, h1, h]
      · cases h1 : alookup (str "conformal") p.fourierCoefficients <;>
          cases h2 : alookup (str "tm") p.fourierCoefficients <;>
            simp [tmercInv, h1, h2, h]
      · cases h1 : alookup (str "conformal") p.fourierCoefficients <;>
          cases h2 : alookup (str "tm") p.fourierCoefficients <;>
            cases h3 : alookup (str "scaled_radius") p.real <;>
              simp [tmercInv, h1, h2, h3, h]
  · intro O p ops h
    rcases h with h | h | h | h
    · simp [laeaFwd, ParsedParameters.realAcc, h]
    · cases h1 : alookup (str "xi_0") p.real <;>
        simp [laeaFwd, ParsedParameters.realAcc, h1, h]
    · cases h1 : alookup (str "xi_0") p.real <;>
        cases h2 : alookup (str "qp") p.real <;>
          simp [laeaFwd, ParsedParameters.realAcc, h1, h2, h]
    · cases h1 : alookup (str "xi_0") p.real <;>
        cases h2 : alookup (str "qp") p.real <;>
          cases h3 : alookup (str "rq") p.real <;>
            simp [laeaFwd, ParsedParameters.realAcc, h1, h2, h3, h]
  · intro O p ops h
    rcases h with h | h | h | h
    · simp [laeaInv, ParsedParameters.realAcc, h]
    · cases h1 : alookup (str "xi_0") p.real <;>
        simp [laeaInv, ParsedParameters.realAcc, h1, h]
    · cases h1 : alookup (str "xi_0") p.real <;>
        cases h2 : alookup (str "rq") p.real <;>
          simp [laeaInv, ParsedParameters.realAcc, h1, h2, h]
    · cases h1 : alookup (str "xi_0") p.real <;>
        cases h2 : alookup (str "rq") p.real <;>
          cases h3 : alookup (str "d") p.real <;>
            simp [laeaInv, ParsedParameters.realAcc,
              ParsedParameters.fourierAcc, h1, h2, h3, h]

/-- Closed instance of the C5 amended theorem: a parameter record with no
precomputed invariants at all soft-fails both tmerc kernels. -/
theorem missing_invariant_soft_failure_witness :
    tmercFwd testOps dfltPP [origin] = .ok (0, [origin]) ∧
    tmercInv testOps dfltPP [origin] = .ok (0, [origin]) :=
  missing_invariant_soft_failure.1 testOps dfltPP [origin] (Or.inl rfl)

/-- C3, counterexample: a definition carrying an in-range zone (32) together
with a malformed flag value still makes both utm constructors return an
error (a `BadParam` from the schema), so the constructor does not error
exactly when the zone lies outside [1, 60]. -/
theorem utm_error_iff_counterexample :
    utm testOps testParse testEllipsoid [] lUtmBadFlag =
      .error (.badParam (str "inv") (str "banana")) ∧
    butm testOps testParse testEllipsoid [] lUtmBadFlag =
      .error (.badParam (str "inv") (str "banana")) :=
  ⟨rfl, rfl⟩

/-- C3, amended: both utm constructors propagate schema-processing errors;
given a successfully parsed parameter record, they return an error exactly
when the zone lies outside [1, 60]; and on success the parameters satisfy
`k[0] = 0.9996`, `lon[0] = to_radians(-183 + 6 zone)`, `lat[0] = 0`,
`x[0] = 500000`, and `y[0]` keeps its initial value 0 (it is never
assigned, so no southern-hemisphere false northing is applied). -/
theorem utm_constructor_characterization :
    (∀ (O : MathOps) (P : ParseFns) (dE : Ellipsoid) (g l : List (Str × Str))
      (e : Error),
      ParsedParameters.new P dE g l utmGamut = .error e →
      utm O P dE g l = .error e ∧ butm O P dE g l = .error e) ∧
    (∀ (O : MathOps) (P : ParseFns) (dE : Ellipsoid) (g l : List (Str × Str))
      (q : ParsedParameters) (z : Nat),
      ParsedParameters.new P dE g l utmGamut = .ok q →
      q.naturalAcc (str "zone") = .ok z →
      ¬(1 ≤ z ∧ z < 61) →
      utm O P dE g l = .error (.general
        (str "UTM: zone must be an integer in the interval 1..60")) ∧
      butm O P dE g l = .error (.general
        (str "UTM: zone must be an integer in the interval 1..60"))) ∧
    (∀ (O : MathOps) (P : ParseFns) (dE : Ellipsoid) (g l : List (Str × Str))
      (q : ParsedParameters) (z : Nat),
      ParsedParameters.new P dE g l utmGamut = .ok q →
      q.naturalAcc (str "zone") = .ok z →
      1 ≤ z ∧ z < 61 →
      ∃ op bop, utm O P dE g l = .ok op ∧ butm O P dE g l = .ok bop ∧
        op.params.k.s0 = Fp.num (0.9996 : ℚ) ∧
        op.params.lon.s0 =
          O.toRadians (Fp.num (-183) + Fp.num 6 * Fp.num (z : ℚ)) ∧
        op.params.lat.s0 = Fp.num 0 ∧
        op.params.x.s0 = Fp.num 500000 ∧
        op.params.y.s0 = Fp.num 0 ∧
        bop.params.k.s0 = Fp.num (0.9996 : ℚ) ∧
        bop.params.lon.s0 =
          O.toRadians (Fp.num (-183) + Fp.num 6 * Fp.num (z : ℚ)) ∧
        bop.params.lat.s0 = Fp.num 0 ∧
        bop.params.x.s0 = Fp.num 500000 ∧
        bop.params.y.s0 = Fp.num 0) := by
  refine ⟨?_, ?_, ?_⟩
  · intro O P dE g l e h
    constructor
    · unfold utm
      rw [h]
    · unfold butm
      rw [h]
  · intro O P dE g l q z hnew hzone hz
    constructor
    · simp only [utm, hnew, hzone]
      rw [if_pos hz]
    · simp only [butm, hnew, hzone]
      rw [if_pos hz]
  · intro O P dE g l q z hnew hzone hz
    have hy : q.y = Quad.zero := (ppNew_fixed_slots hnew).2.2.2.2.1
    refine ⟨⟨tmercPrecompute O (utmOverride O z q)⟩, ⟨utmOverride O z q⟩,
      ?_, ?_, rfl, rfl, rfl, rfl, ?_, rfl, rfl, rfl, rfl, ?_⟩
    · simp only [utm, hnew, hzone]
      rw [if_neg (not_not_intro hz)]
    · simp only [butm, hnew, hzone]
      rw [if_neg (not_not_intro hz)]
    · show (utmOverride O z q).y.s0 = Fp.num 0
      rw [show (utmOverride O z q).y = q.y from rfl, hy]
      rfl
    · show (utmOverride O z q).y.s0 = Fp.num 0
      rw [show (utmOverride O z q).y = q.y from rfl, hy]
      rfl

/-- Closed instance of the C3 amended theorem at `utm zone:32`. -/
theorem utm_constructor_characterization_witness :
    ∃ op bop,
      utm testOps testParse testEllipsoid [] lUtmOk = .ok op ∧
      butm testOps testParse testEllipsoid [] lUtmOk = .ok bop ∧
      op.params.k.s0 = Fp.num (0.9996 : ℚ) ∧
      op.params.lon.s0 =
        testOps.toRadians (Fp.num (-183) + Fp.num 6 * Fp.num ((32 : Nat) : ℚ)) ∧
      op.params.lat.s0 = Fp.num 0 ∧
      op.params.x.s0 = Fp.num 500000 ∧
      op.params.y.s0 = Fp.num 0 ∧
      bop.params.k.s0 = Fp.num (0.9996 : ℚ) ∧
      bop.params.lon.s0 =
        testOps.toRadians (Fp.num (-183) + Fp.num 6 * Fp.num ((32 : Nat) : ℚ)) ∧
      bop.params.lat.s0 = Fp.num 0 ∧
      bop.params.x.s0 = Fp.num 500000 ∧
      bop.params.y.s0 = Fp.num 0 :=
  utm_constructor_characterization.2.2 testOps testParse testEllipsoid []
    lUtmOk
    (exOk dfltPP (ParsedParameters.new testParse testEllipsoid [] lUtmOk utmGamut))
    32 rfl rfl (by decide)

end Geodesy
